import Mathlib

/-!
# Verification of scripts/notion_cleanup.py

A shallow embedding of the cleanup script. The remote service is modelled as
the finite sequence of responses the script would receive, consumed one per
request: a query request reads the next element of a list of
`QueryResponse`, and attempt number `i` of a mutation on an item reads
element `i` of that item's list of `MutResponse`. A request issued when the
response list is exhausted is a transport failure (in the script, an
exception caught by the generic handler).

Pure functions (`format_notion_id`, `load_deletion_rules` validation) are
translated directly. Stateful loops (`query_database`, `delete_page`, the
per-database loop of `main`) are translated as recursions that additionally
record their observable effects: which requests were issued (and with which
cursor), how many pacing pauses ran, and which backoff waits were slept.
-/

/-! ## Pagination (`query_database`) -/

/-- One response of the query endpoint, as the script reads it:
the list of page ids under `results`, the `has_more` flag (absent read as
false), the optional `next_cursor`; or a request-level failure
(a non-2xx status raised by `raise_for_status`, or a transport exception). -/
inductive QueryResponse where
  | page (results : List String) (hasMore : Bool) (nextCursor : Option String)
  | failure
deriving DecidableEq, Repr

/-- The cursor actually attached to a request body: the script adds
`start_cursor` only when the stored cursor is truthy, so `None` and the
empty string are both omitted. -/
def sentCursorOf : Option String → Option String
  | none => none
  | some s => if s = "" then none else some s

/-- Observable result of `query_database`: the returned list of page ids,
the cursor attached to each request that was issued (in order), the number
of 0.35 s inter-page pauses, and whether the `except` branch ran. -/
structure QueryResult where
  pageIds : List String
  sentCursors : List (Option String)
  sleeps : Nat
  errored : Bool
deriving DecidableEq, Repr

/-- The `while has_more` loop of `query_database`. Arguments: responses
still to be served, the stored `start_cursor`, the accumulated `page_ids`,
the cursors sent so far, pauses so far. Entering the loop body issues one
request; a `failure` response or an exhausted response list takes the
`except` branch, which discards the accumulated ids and returns `[]`. -/
def queryLoop : List QueryResponse → Option String → List String →
    List (Option String) → Nat → QueryResult
  | remaining, cursor, acc, sent, sleeps =>
    match remaining with
    | [] => ⟨[], sent ++ [sentCursorOf cursor], sleeps, true⟩
    | QueryResponse.failure :: _ => ⟨[], sent ++ [sentCursorOf cursor], sleeps, true⟩
    | QueryResponse.page results hasMore nextCursor :: rest =>
      if hasMore then
        queryLoop rest nextCursor (acc ++ results)
          (sent ++ [sentCursorOf cursor]) (sleeps + 1)
      else
        ⟨acc ++ results, sent ++ [sentCursorOf cursor], sleeps, false⟩

/-- `query_database`: `has_more` starts true and `start_cursor` starts
`None`, so the first request is always issued, with no cursor. -/
def query_database (responses : List QueryResponse) : QueryResult :=
  queryLoop responses none [] [] 0

/-! ## Identifier normalization (`format_notion_id`) -/

/-- The `clean_id` computation: remove every dash and space
(`replace('-', '').replace(' ', '')`), as a character list. -/
def stripDashSpace (s : String) : List Char :=
  s.data.filter (fun c => !(c == '-') && !(c == ' '))

/-- `format_notion_id`: if the cleaned id does not have exactly 32
characters, warn and return the input unchanged; otherwise rebuild it in
the dashed 8-4-4-4-12 shape. Only the length is checked, not hexness. -/
def format_notion_id (notion_id : String) : String :=
  let clean := stripDashSpace notion_id
  if clean.length ≠ 32 then notion_id
  else
    String.mk (clean.take 8) ++ "-" ++ String.mk ((clean.drop 8).take 4) ++ "-" ++
      String.mk ((clean.drop 12).take 4) ++ "-" ++ String.mk ((clean.drop 16).take 4) ++
      "-" ++ String.mk (clean.drop 20)

/-! ## Single-item mutation (`delete_page`) -/

/-- One response of the page-update endpoint, as the script classifies it:
2xx success, an `HTTPStatusError` with status 429, an `HTTPStatusError`
with any other non-2xx status, or a transport exception reaching the
generic handler. -/
inductive MutResponse where
  | ok
  | status429
  | statusOther
  | transportFail
deriving DecidableEq, Repr

/-- Observable result of `delete_page`: the returned boolean, the number of
mutation requests issued, the backoff waits slept (in seconds, in order),
and whether the 0.35 s pacing pause after a success ran. -/
structure DeleteResult where
  success : Bool
  attempts : Nat
  backoffWaits : List Nat
  pacedAfterSuccess : Bool
deriving DecidableEq, Repr

/-- `max_retries = 3` in `delete_page`. -/
def max_retries : Nat := 3

/-- `retry_delay = 1` second, the initial backoff delay in `delete_page`. -/
def retry_delay : Nat := 1

/-- The `for attempt in range(max_retries)` loop of `delete_page`. First
argument is the remaining fuel (`max_retries - attempt`), second the
current attempt index. Attempt `i` reads response `i`; a missing response
is a transport failure. A 429 sleeps `retry_delay * 2 ^ attempt` seconds
and retries; any other error returns False at once; falling off the loop
returns False. -/
def deleteLoop : Nat → Nat → List MutResponse → List Nat → DeleteResult
  | 0, attempt, _, waits => ⟨false, attempt, waits, false⟩
  | Nat.succ fuel, attempt, responses, waits =>
    match responses.get? attempt with
    | none => ⟨false, attempt + 1, waits, false⟩
    | some MutResponse.ok => ⟨true, attempt + 1, waits, true⟩
    | some MutResponse.status429 =>
      deleteLoop fuel (attempt + 1) responses (waits ++ [retry_delay * 2 ^ attempt])
    | some MutResponse.statusOther => ⟨false, attempt + 1, waits, false⟩
    | some MutResponse.transportFail => ⟨false, attempt + 1, waits, false⟩

/-- `delete_page`: in dry-run mode it logs and returns True without any
request; otherwise it runs the bounded retry loop. -/
def delete_page (dry_run : Bool) (responses : List MutResponse) : DeleteResult :=
  if dry_run then ⟨true, 0, [], false⟩
  else deleteLoop max_retries 0 responses []

/-! ## Configuration validation (`load_deletion_rules`) -/

/-- A parsed JSON value, as far as the validation in `load_deletion_rules`
inspects one. -/
inductive Json where
  | null
  | bool (b : Bool)
  | num (n : Int)
  | str (s : String)
  | arr (elems : List Json)
  | obj (fields : List (String × Json))

/-- Key lookup on a JSON object; anything that is not an object has no
keys. -/
def Json.lookupKey : Json → String → Option Json
  | Json.obj fields, k => List.lookup k fields
  | _, _ => none

/-- The validation performed by `load_deletion_rules` after reading the
file. The input is `none` when the file is missing or is not valid JSON
after environment substitution (both call `sys.exit(1)`); the checks that
follow also each call `sys.exit(1)` on failure, here returned as `none`:
the config must contain a `databases` list, and every entry must have a
`database_id` and a `filters` key. -/
def load_deletion_rules (source : Option Json) : Option Json :=
  match source with
  | none => none
  | some config =>
    match config.lookupKey "databases" with
    | some (Json.arr entries) =>
      if entries.all (fun e =>
          (e.lookupKey "database_id").isSome && (e.lookupKey "filters").isSome)
      then some config
      else none
    | some _ => none
    | none => none

/-! ## Run orchestration (`main`) -/

/-- One entry of the `databases` list together with the responses the
remote service would give this run: the raw `database_id`, the optional
`name`, the optional per-database `dry_run` override, the responses served
to this database's query, and, for the item at position `i` of the
returned page ids, the responses served to its successive mutation
attempts. -/
structure DbConfig where
  database_id : String
  name : Option String
  dry_run : Option Bool
  queryResponses : List QueryResponse
  mutResponses : List (List MutResponse)
deriving DecidableEq, Repr

/-- The four statistics counters of `main`. -/
structure Summary where
  total_queried : Nat
  total_matched : Nat
  total_deleted : Nat
  total_failed : Nat
deriving DecidableEq, Repr

/-- Pointwise addition of the counters. -/
def Summary.add (a b : Summary) : Summary :=
  ⟨a.total_queried + b.total_queried, a.total_matched + b.total_matched,
    a.total_deleted + b.total_deleted, a.total_failed + b.total_failed⟩

/-- `db_config.get('dry_run', dry_run)`: the per-database override takes
precedence over the global flag. -/
def effectiveDryRun (dry_run : Bool) (db : DbConfig) : Bool :=
  db.dry_run.getD dry_run

/-- The body of the per-database loop of `main`: query the database
(`format_notion_id` is applied to the raw id but only affects the request
URL, which the response model absorbs), count the database as queried and
its page ids as matched, and, unless the id list is empty (`continue`),
call `delete_page` once per page id with the effective dry-run flag,
counting True returns as deleted and False returns as failed. -/
def processTarget (dry_run : Bool) (db : DbConfig) : Summary :=
  let page_ids := (query_database db.queryResponses).pageIds
  let db_dry_run := effectiveDryRun dry_run db
  let outcomes := (List.range page_ids.length).map
    (fun i => (delete_page db_dry_run (db.mutResponses.getD i [])).success)
  { total_queried := 1
    total_matched := page_ids.length
    total_deleted := outcomes.count true
    total_failed := outcomes.count false }

/-- The per-database loop of `main`, accumulating the four counters over
the configured databases in order. -/
def runTargets (dry_run : Bool) : List DbConfig → Summary
  | [] => ⟨0, 0, 0, 0⟩
  | db :: rest => Summary.add (processTarget dry_run db) (runTargets dry_run rest)

/-- The final exit of `main`: `sys.exit(1)` if any deletion failed,
`sys.exit(0)` otherwise. -/
def exit_code (s : Summary) : Nat :=
  if s.total_failed > 0 then 1 else 0

/-- The whole process: configuration loading and validation first (any
failure there is `sys.exit(1)` before a single database is processed),
then the per-database loop, then the summary-driven exit. `dbs` is the
parsed list of database targets paired with the responses of this run. -/
def main_exit (configSource : Option Json) (dry_run : Bool) (dbs : List DbConfig) : Nat :=
  match load_deletion_rules configSource with
  | none => 1
  | some _ => exit_code (runTargets dry_run dbs)

/-- The per-item outcome vocabulary of the specification. -/
inductive OperationOutcome where
  | Succeeded
  | Failed
  | SkippedDryRun
deriving DecidableEq, Fintype

/-! ## Auxiliary notions used only to state properties -/

/-- Remove the continuation cursor from every response, leaving the
more-pages flags and results untouched. -/
def eraseCursors (responses : List QueryResponse) : List QueryResponse :=
  responses.map (fun r =>
    match r with
    | QueryResponse.page results hasMore _ => QueryResponse.page results hasMore none
    | QueryResponse.failure => QueryResponse.failure)

/-- A well-formed paginated serving of `ids` in pages of size `P`: every
page but the last carries `has_more = true` and a cursor, the last carries
`has_more = false` and no cursor. The first argument is fuel; `ids.length`
suffices whenever `0 < P`. -/
def pagesOfAux : Nat → List String → Nat → List QueryResponse
  | 0, ids, _ => [QueryResponse.page ids false none]
  | Nat.succ fuel, ids, P =>
    if ids.length ≤ P then [QueryResponse.page ids false none]
    else
      QueryResponse.page (ids.take P) true (some "cur") :: pagesOfAux fuel (ids.drop P) P

/-- The pages a server holding exactly `ids` serves for page size `P`. -/
def pagesOf (ids : List String) (P : Nat) : List QueryResponse :=
  pagesOfAux ids.length ids P

/-- Number of pages a result set of size `N` occupies at page size `P`:
the ceiling of `N / P`, except that an empty result set still occupies one
(empty) page. -/
def maxPages (N P : Nat) : Nat :=
  max 1 ((N + P - 1) / P)

/-! ## Lemmas about the pagination loop -/

/-- The loop never issues more requests than one per remaining response,
plus the final request that finds the response list exhausted. -/
theorem queryLoop_requests_le (rs : List QueryResponse) :
    ∀ (c : Option String) (acc : List String) (sent : List (Option String)) (sl : Nat),
      (queryLoop rs c acc sent sl).sentCursors.length ≤ sent.length + rs.length + 1 := by
  induction rs with
  | nil =>
    intro c acc sent sl
    simp [queryLoop]
  | cons r rest ih =>
    intro c acc sent sl
    cases r with
    | failure => simp [queryLoop]
    | page results hasMore nextCursor =>
      cases hasMore with
      | false => simp [queryLoop]
      | true =>
        have h := ih nextCursor (acc ++ results) (sent ++ [sentCursorOf c]) (sl + 1)
        simp only [queryLoop, if_true]
        simp only [List.length_append, List.length_cons, List.length_nil] at h ⊢
        omega

/-- The loop ignores cursors for control: erasing every cursor from the
responses changes neither the ids returned, nor the number of requests,
nor the pauses, nor whether the failure branch ran. -/
theorem queryLoop_eraseCursors (rs : List QueryResponse) :
    ∀ (c c2 : Option String) (acc : List String) (sent sent2 : List (Option String)) (sl : Nat),
      sent2.length = sent.length →
      (queryLoop (eraseCursors rs) c2 acc sent2 sl).pageIds =
          (queryLoop rs c acc sent sl).pageIds ∧
        (queryLoop (eraseCursors rs) c2 acc sent2 sl).sentCursors.length =
          (queryLoop rs c acc sent sl).sentCursors.length ∧
        (queryLoop (eraseCursors rs) c2 acc sent2 sl).sleeps =
          (queryLoop rs c acc sent sl).sleeps ∧
        (queryLoop (eraseCursors rs) c2 acc sent2 sl).errored =
          (queryLoop rs c acc sent sl).errored := by
  induction rs with
  | nil =>
    intro c c2 acc sent sent2 sl h
    simp [queryLoop, eraseCursors, h]
  | cons r rest ih =>
    intro c c2 acc sent sent2 sl h
    cases r with
    | failure => simp [queryLoop, eraseCursors, h]
    | page results hasMore nextCursor =>
      cases hasMore with
      | false => simp [queryLoop, eraseCursors, h]
      | true =>
        simp only [eraseCursors, List.map_cons, queryLoop, if_pos]
        exact ih nextCursor none (acc ++ results) (sent ++ [sentCursorOf c])
          (sent2 ++ [sentCursorOf c2]) (sl + 1) (by simp [h])

/-- If the failure branch ran, the returned id list is empty, whatever was
already collected. -/
theorem queryLoop_errored_nil (rs : List QueryResponse) :
    ∀ (c : Option String) (acc : List String) (sent : List (Option String)) (sl : Nat),
      (queryLoop rs c acc sent sl).errored = true →
      (queryLoop rs c acc sent sl).pageIds = [] := by
  induction rs with
  | nil =>
    intro c acc sent sl _
    simp [queryLoop]
  | cons r rest ih =>
    intro c acc sent sl h
    cases r with
    | failure => simp [queryLoop]
    | page results hasMore nextCursor =>
      cases hasMore with
      | false => simp [queryLoop] at h
      | true =>
        simp only [queryLoop] at h ⊢
        exact ih _ _ _ _ h

/-- A result set never occupies zero pages. -/
theorem one_le_maxPages (N P : Nat) : 1 ≤ maxPages N P :=
  Nat.le_max_left 1 _

/-- A result set that fits in one page occupies one page. -/
theorem maxPages_of_le (N P : Nat) (hP : 0 < P) (h : N ≤ P) : maxPages N P = 1 := by
  have hlt : (N + P - 1) / P < 2 := by
    rw [Nat.div_lt_iff_lt_mul hP]
    omega
  unfold maxPages
  omega

/-- A result set larger than one page occupies one page more than its
remainder after the first page. -/
theorem maxPages_of_gt (N P : Nat) (hP : 0 < P) (h : P < N) :
    maxPages N P = maxPages (N - P) P + 1 := by
  have h1 : N + P - 1 = N - 1 + P := by omega
  have h2 : (N + P - 1) / P = (N - 1) / P + 1 := by
    rw [h1, Nat.add_div_right _ hP]
  have h3 : N - P + P - 1 = N - 1 := by omega
  have h4 : 1 ≤ (N - 1) / P := (Nat.one_le_div_iff hP).mpr (by omega)
  unfold maxPages
  rw [h2, h3]
  omega

/-- Running the pagination loop against a well-formed serving of `ids` in
pages of size `P` collects exactly `ids`, issues one request per page,
pauses once per page but the last, and never takes the failure branch. -/
theorem queryLoop_pagesOfAux (P : Nat) (hP : 0 < P) :
    ∀ (n : Nat) (ids : List String) (c : Option String) (acc : List String)
      (sent : List (Option String)) (sl : Nat), ids.length ≤ n →
      (queryLoop (pagesOfAux n ids P) c acc sent sl).pageIds = acc ++ ids ∧
        (queryLoop (pagesOfAux n ids P) c acc sent sl).sentCursors.length =
          sent.length + maxPages ids.length P ∧
        (queryLoop (pagesOfAux n ids P) c acc sent sl).sleeps =
          sl + (maxPages ids.length P - 1) ∧
        (queryLoop (pagesOfAux n ids P) c acc sent sl).errored = false := by
  intro n
  induction n with
  | zero =>
    intro ids c acc sent sl hlen
    have hids : ids = [] := List.length_eq_zero.mp (Nat.le_zero.mp hlen)
    subst hids
    simp [pagesOfAux, queryLoop, maxPages_of_le 0 P hP (Nat.zero_le P)]
  | succ n ih =>
    intro ids c acc sent sl hlen
    by_cases hle : ids.length ≤ P
    · simp only [pagesOfAux, if_pos hle]
      simp [queryLoop, maxPages_of_le ids.length P hP hle]
    · push_neg at hle
      simp only [pagesOfAux, if_neg (Nat.not_le.mpr hle)]
      simp only [queryLoop, if_true]
      have hdrop : (ids.drop P).length ≤ n := by
        simp only [List.length_drop]
        omega
      obtain ⟨h1, h2, h3, h4⟩ :=
        ih (ids.drop P) (some "cur") (acc ++ ids.take P) (sent ++ [sentCursorOf c])
          (sl + 1) hdrop
      have hmax := maxPages_of_gt ids.length P hP hle
      have hone := one_le_maxPages (ids.length - P) P
      refine ⟨?_, ?_, ?_, h4⟩
      · rw [h1, List.append_assoc, List.take_append_drop]
      · rw [h2]
        simp only [List.length_append, List.length_cons, List.length_nil, List.length_drop]
        omega
      · rw [h3]
        simp only [List.length_drop]
        omega

/-! ## Claim C1 -/

/-- C1 counterexample. The claim states that on a response whose more-pages
flag is true but whose cursor is absent, `query_database` stops issuing
further requests, so on this input only 1 request would be issued. In fact
the loop condition is the `has_more` flag alone: after the first response
(`has_more = true`, no cursor) a second request is issued, carrying no
cursor, and 2 requests are issued in total. -/
theorem C1_counterexample :
    query_database [QueryResponse.page ["a"] true none, QueryResponse.page [] false none] =
        ⟨["a"], [none, none], 1, false⟩ ∧
      (query_database [QueryResponse.page ["a"] true none,
          QueryResponse.page [] false none]).sentCursors.length = 2 := by
  exact ⟨rfl, rfl⟩

/-- C1 amended: pagination continues while the more-pages flag of the
response is true, regardless of cursor presence — erasing every cursor
changes neither the ids returned, nor the number of requests issued, nor
the pauses, nor whether the failure branch runs; a response with the flag
true but no cursor leads to a further request issued without a cursor.
Termination holds because each request consumes a response: at most one
request more than there are responses is ever issued. -/
theorem C1_amended_cursor_not_authoritative (rs : List QueryResponse) :
    (query_database (eraseCursors rs)).pageIds = (query_database rs).pageIds ∧
      (query_database (eraseCursors rs)).sentCursors.length =
        (query_database rs).sentCursors.length ∧
      (query_database (eraseCursors rs)).sleeps = (query_database rs).sleeps ∧
      (query_database (eraseCursors rs)).errored = (query_database rs).errored ∧
      (query_database rs).sentCursors.length ≤ rs.length + 1 := by
  obtain ⟨h1, h2, h3, h4⟩ := queryLoop_eraseCursors rs none none [] [] [] 0 rfl
  exact ⟨h1, h2, h3, h4, by simpa using queryLoop_requests_le rs none [] [] 0⟩

/-! ## Claim C2 -/

/-- C2 counterexample. The claim states that an item processed with an
effective dry-run flag of true leaves the succeeded (deleted) and failed
counts unchanged. In fact `delete_page` returns True in dry-run mode and
`main` counts every True return in `total_deleted`: a run over one
database matching one item in dry-run mode ends with
`total_deleted = 1`, not 0. -/
theorem C2_counterexample :
    runTargets true [⟨"db1", none, none, [QueryResponse.page ["p1"] false none], []⟩] =
      ⟨1, 1, 1, 0⟩ := by
  rfl

/-- C2 amended: an item processed with an effective dry-run flag of true is
counted as deleted (succeeded) in the run summary — every matched item of a
dry-run database goes to `total_deleted` — while the failed count receives
no contribution from dry-run items. -/
theorem C2_amended_dry_run_counted_as_deleted (dry_run : Bool) (db : DbConfig)
    (h : effectiveDryRun dry_run db = true) :
    (processTarget dry_run db).total_failed = 0 ∧
      (processTarget dry_run db).total_deleted =
        (query_database db.queryResponses).pageIds.length := by
  constructor <;>
    simp [processTarget, h, delete_page, List.count_replicate]

/-- Witness for the amended C2 at a concrete dry-run database with one
matching item. -/
theorem C2_amended_witness :
    (processTarget true ⟨"db1", none, none,
        [QueryResponse.page ["p1"] false none], []⟩).total_failed = 0 ∧
      (processTarget true ⟨"db1", none, none,
        [QueryResponse.page ["p1"] false none], []⟩).total_deleted = 1 := by
  have h := C2_amended_dry_run_counted_as_deleted true
    ⟨"db1", none, none, [QueryResponse.page ["p1"] false none], []⟩ rfl
  exact ⟨h.1, by rw [h.2]; rfl⟩

/-! ## Claim C3 -/

/-- C3: in live mode, a 429 on attempt `i` is followed by a wait of
`retry_delay * 2 ^ i` seconds (1 s, 2 s, 4 s) and a retry of the same
item, up to the ceiling of 3 attempts: an item whose first `k` attempts
are rate-limited and whose next attempt succeeds makes `k + 1` requests
after the waits `2 ^ 0, ..., 2 ^ (k - 1)`; an item rate-limited on all 3
attempts is reported failed after exactly 3 requests — no 4th attempt. -/
theorem C3_rate_limit_backoff (rs rs2 : List MutResponse) (k : Nat)
    (hall : ∀ i, i < max_retries → rs[i]? = some MutResponse.status429)
    (hk : k < max_retries)
    (hlt : ∀ i, i < k → rs2[i]? = some MutResponse.status429)
    (hok : rs2[k]? = some MutResponse.ok) :
    delete_page false rs = ⟨false, 3, [1, 2, 4], false⟩ ∧
      delete_page false rs2 =
        ⟨true, k + 1, (List.range k).map (fun i => retry_delay * 2 ^ i), true⟩ := by
  constructor
  · have h0 := hall 0 (by norm_num [max_retries])
    have h1 := hall 1 (by norm_num [max_retries])
    have h2 := hall 2 (by norm_num [max_retries])
    simp [delete_page, deleteLoop, max_retries, h0, h1, h2, retry_delay]
  · have hk3 : k < 3 := hk
    interval_cases k
    · simp [delete_page, deleteLoop, max_retries, hok]
    · have h0 := hlt 0 (by norm_num)
      simp [delete_page, deleteLoop, max_retries, h0, hok, retry_delay]
      decide
    · have h0 := hlt 0 (by norm_num)
      have h1 := hlt 1 (by norm_num)
      simp [delete_page, deleteLoop, max_retries, h0, h1, hok, retry_delay,
        List.range_succ]

/-- Witness for C3: an item rate-limited on all three attempts, and an
item rate-limited once that succeeds on its second attempt. -/
theorem C3_witness :
    delete_page false [MutResponse.status429, MutResponse.status429,
        MutResponse.status429] = ⟨false, 3, [1, 2, 4], false⟩ ∧
      delete_page false [MutResponse.status429, MutResponse.ok] =
        ⟨true, 2, [1], true⟩ := by
  have h := C3_rate_limit_backoff
    [MutResponse.status429, MutResponse.status429, MutResponse.status429]
    [MutResponse.status429, MutResponse.ok] 1
    (by decide) (by decide) (by decide) (by decide)
  exact ⟨h.1, by rw [h.2]; rfl⟩

/-! ## Claim C7 -/

/-- C7: in live mode, a mutation-request error that is not a 429 — a
non-2xx status other than 429, or a transport error — ends the item at
once: after `k` rate-limited attempts (`k` below the ceiling), such an
error on the next attempt yields a failed result after exactly `k + 1`
requests, with no further retry; and the run goes on to the next item, as
on a database with two matched items where the first fails this way and
the second succeeds, which is tallied as one deleted and one failed. -/
theorem C7_hard_error_no_retry (rs : List MutResponse) (k : Nat)
    (hk : k < max_retries)
    (h429 : ∀ i, i < k → rs[i]? = some MutResponse.status429)
    (herr : rs[k]? = some MutResponse.statusOther ∨
      rs[k]? = some MutResponse.transportFail) :
    delete_page false rs =
        ⟨false, k + 1, (List.range k).map (fun i => retry_delay * 2 ^ i), false⟩ ∧
      processTarget false ⟨"db", none, none,
          [QueryResponse.page ["a", "b"] false none], [rs, [MutResponse.ok]]⟩ =
        ⟨1, 2, 1, 1⟩ := by
  have hmain : delete_page false rs =
      ⟨false, k + 1, (List.range k).map (fun i => retry_delay * 2 ^ i), false⟩ := by
    have hk3 : k < 3 := hk
    interval_cases k
    · rcases herr with h | h <;> simp [delete_page, deleteLoop, max_retries, h]
    · have h0 := h429 0 (by norm_num)
      rcases herr with h | h <;>
        simp [delete_page, deleteLoop, max_retries, h0, h, retry_delay]
      <;> decide
    · have h0 := h429 0 (by norm_num)
      have h1 := h429 1 (by norm_num)
      rcases herr with h | h <;>
        simp [delete_page, deleteLoop, max_retries, h0, h1, h, retry_delay,
          List.range_succ]
  have hsucc : (delete_page false rs).success = false := by rw [hmain]
  refine ⟨hmain, ?_⟩
  have hq : (query_database [QueryResponse.page ["a", "b"] false none]).pageIds =
      ["a", "b"] := rfl
  have hok2 : (delete_page false [MutResponse.ok]).success = true := rfl
  simp [processTarget, hq, effectiveDryRun, List.range_succ, hsucc, hok2]

/-- Witness for C7: a non-429 hard error on the first attempt. -/
theorem C7_witness :
    delete_page false [MutResponse.statusOther] = ⟨false, 1, [], false⟩ := by
  have h := C7_hard_error_no_retry [MutResponse.statusOther] 0
    (by decide) (by decide) (Or.inl rfl)
  exact h.1

/-! ## Claim C4 -/

/-- C4: if a request or transport error occurs during pagination — at any
point, also after identifiers were already collected — `query_database`
returns the empty list, and the run goes on: the remaining databases of
the run contribute to the summary exactly as if the failed one had been
queried, matched nothing, and triggered no mutation. -/
theorem C4_query_failure_yields_empty (dry_run : Bool) (db : DbConfig)
    (rest : List DbConfig)
    (h : (query_database db.queryResponses).errored = true) :
    (query_database db.queryResponses).pageIds = [] ∧
      runTargets dry_run (db :: rest) =
        Summary.add ⟨1, 0, 0, 0⟩ (runTargets dry_run rest) := by
  have hnil : (query_database db.queryResponses).pageIds = [] :=
    queryLoop_errored_nil _ _ _ _ _ h
  refine ⟨hnil, ?_⟩
  show Summary.add (processTarget dry_run db) _ = _
  have hpt : processTarget dry_run db = ⟨1, 0, 0, 0⟩ := by
    simp [processTarget, hnil]
  rw [hpt]

/-- Witness for C4: a failure on the second page, after the ids of the
first page were already collected; the result is still the empty list. -/
theorem C4_witness :
    (query_database [QueryResponse.page ["a", "b"] true (some "c"),
        QueryResponse.failure]).pageIds = [] :=
  (C4_query_failure_yields_empty false
    ⟨"db", none, none,
      [QueryResponse.page ["a", "b"] true (some "c"), QueryResponse.failure], []⟩
    [] rfl).1

/-! ## Claim C5 -/

/-- C5: the process exits 0 exactly when the configuration loaded and
validated and not a single item failed across the whole run; in every
other case — any failed item anywhere, or a configuration-level failure —
it exits 1, and those are the only two exit values. -/
theorem C5_exit_status (cfg : Option Json) (dry_run : Bool) (dbs : List DbConfig) :
    (main_exit cfg dry_run dbs = 0 ↔
        (load_deletion_rules cfg).isSome = true ∧
          (runTargets dry_run dbs).total_failed = 0) ∧
      (main_exit cfg dry_run dbs = 1 ↔
        ¬((load_deletion_rules cfg).isSome = true ∧
          (runTargets dry_run dbs).total_failed = 0)) := by
  cases hload : load_deletion_rules cfg with
  | none => simp [main_exit, hload]
  | some c =>
    simp only [main_exit, hload, Option.isSome_some, true_and]
    unfold exit_code
    by_cases hf : (runTargets dry_run dbs).total_failed > 0
    · constructor
      · simp [hf]
        omega
      · simp [hf]
        omega
    · constructor
      · simp [hf]
        omega
      · simp [hf]
        omega

/-- Witness for C5: a missing or invalid configuration exits 1, and an
empty valid run exits 0. -/
theorem C5_witness :
    main_exit none true [] = 1 ∧
      main_exit (some (Json.obj [("databases", Json.arr [])])) true [] = 0 := by
  constructor
  · exact (C5_exit_status none true []).2.mpr (by simp [load_deletion_rules])
  · exact (C5_exit_status (some (Json.obj [("databases", Json.arr [])])) true []).1.mpr
      ⟨rfl, rfl⟩

/-! ## Claim C8 -/

/-- C8 counterexample. The claim states that a dry-run call of
`delete_page` returns the distinct outcome SkippedDryRun. In fact the
return type of `delete_page` is a boolean and the dry-run call returns
True — the very value the live path returns on success and that `main`
counts as deleted — so no reading of the returned value can map the
dry-run return to SkippedDryRun and a live success to Succeeded. -/
theorem C8_counterexample :
    ¬∃ interp : Bool → OperationOutcome,
        interp (delete_page true []).success = OperationOutcome.SkippedDryRun ∧
          interp (delete_page false [MutResponse.ok]).success =
            OperationOutcome.Succeeded := by
  decide

/-- C8 amended: a dry-run call of `delete_page` issues no mutation
request, sleeps no backoff nor pacing pause, and returns immediately —
but what it returns is the boolean True, the same value a live success
returns, not a distinct SkippedDryRun outcome. -/
theorem C8_amended_dry_run_no_request (rs : List MutResponse) :
    delete_page true rs = ⟨true, 0, [], false⟩ ∧
      (delete_page true rs).success = (delete_page false [MutResponse.ok]).success :=
  ⟨rfl, rfl⟩

/-! ## Claim C6 -/

/-- C6 counterexample. The claim states that a result set of size N served
in pages of size P costs exactly ceil(N/P) query requests. For N = 0 and
P = 5, ceil(N/P) = 0, but the loop enters with `has_more` initialised to
true, so the (empty) result set still costs one request. -/
theorem C6_counterexample :
    (query_database (pagesOf [] 5)).sentCursors.length = 1 ∧ (0 + 5 - 1) / 5 = 0 :=
  ⟨rfl, rfl⟩

/-- C6 amended: for a result set of `ids` served in pages of size `P > 0`,
`query_database` returns exactly the ids served, in order; it issues
`max 1 (ceil(N/P))` requests — exactly `ceil(N/P)` whenever `N ≥ 1`, and
one request for an empty result set — and pauses exactly once between
consecutive requests: one pause fewer than requests, so never before the
first request nor after the last. -/
theorem C6_amended_pagination_counts (ids : List String) (P : Nat) (hP : 0 < P) :
    (query_database (pagesOf ids P)).pageIds = ids ∧
      (query_database (pagesOf ids P)).sentCursors.length = maxPages ids.length P ∧
      (query_database (pagesOf ids P)).sleeps =
        (query_database (pagesOf ids P)).sentCursors.length - 1 ∧
      (query_database (pagesOf ids P)).errored = false ∧
      (ids ≠ [] → (query_database (pagesOf ids P)).sentCursors.length =
        (ids.length + P - 1) / P) := by
  obtain ⟨h1, h2, h3, h4⟩ :=
    queryLoop_pagesOfAux P hP ids.length ids none [] [] 0 (le_refl _)
  have e1 : (query_database (pagesOf ids P)).pageIds = ids := by simpa using h1
  have e2 : (query_database (pagesOf ids P)).sentCursors.length = maxPages ids.length P := by
    simpa using h2
  have e3 : (query_database (pagesOf ids P)).sleeps = maxPages ids.length P - 1 := by
    simpa using h3
  refine ⟨e1, e2, by rw [e2, e3], h4, ?_⟩
  intro hne
  have hlen : 1 ≤ ids.length := List.length_pos.mpr hne
  have hdiv : 1 ≤ (ids.length + P - 1) / P := (Nat.one_le_div_iff hP).mpr (by omega)
  rw [e2]
  unfold maxPages
  omega

/-- Witness for C6 at three ids served in pages of two: two requests, one
pause, all ids returned. -/
theorem C6_amended_witness :
    (query_database (pagesOf ["a", "b", "c"] 2)).pageIds = ["a", "b", "c"] ∧
      (query_database (pagesOf ["a", "b", "c"] 2)).sentCursors.length = 2 ∧
      (query_database (pagesOf ["a", "b", "c"] 2)).sleeps = 1 := by
  have h := C6_amended_pagination_counts ["a", "b", "c"] 2 (by decide)
  refine ⟨h.1, ?_, ?_⟩
  · rw [h.2.1]; rfl
  · rw [h.2.2.1, h.2.1]; rfl

/-! ## Claim C10 -/

/-- C10: a database whose query fails entirely still counts once in the
databases-processed tally, adds nothing to the matched, deleted or failed
counts, leaves the exit status exactly what the rest of the run makes it
(in particular a run whose every attempted mutation succeeded exits 0
despite the failed query), and its summary contribution is identical to
that of a database genuinely matching zero items — the failure is
indistinguishable there. -/
theorem C10_failed_query_indistinguishable (dry_run : Bool) (db : DbConfig)
    (rest : List DbConfig)
    (h : (query_database db.queryResponses).errored = true) :
    processTarget dry_run db = ⟨1, 0, 0, 0⟩ ∧
      runTargets dry_run (db :: rest) =
        Summary.add ⟨1, 0, 0, 0⟩ (runTargets dry_run rest) ∧
      exit_code (runTargets dry_run (db :: rest)) = exit_code (runTargets dry_run rest) ∧
      ((runTargets dry_run rest).total_failed = 0 →
        exit_code (runTargets dry_run (db :: rest)) = 0) ∧
      processTarget dry_run db =
        processTarget dry_run ⟨db.database_id, db.name, db.dry_run,
          [QueryResponse.page [] false none], db.mutResponses⟩ := by
  have hnil : (query_database db.queryResponses).pageIds = [] :=
    queryLoop_errored_nil _ _ _ _ _ h
  have hpt : processTarget dry_run db = ⟨1, 0, 0, 0⟩ := by
    simp [processTarget, hnil]
  have hrun : runTargets dry_run (db :: rest) =
      Summary.add ⟨1, 0, 0, 0⟩ (runTargets dry_run rest) := by
    show Summary.add (processTarget dry_run db) _ = _
    rw [hpt]
  have hexit : exit_code (runTargets dry_run (db :: rest)) =
      exit_code (runTargets dry_run rest) := by
    rw [hrun]
    simp [exit_code, Summary.add]
  refine ⟨hpt, hrun, hexit, ?_, ?_⟩
  · intro h0
    rw [hexit]
    simp [exit_code, h0]
  · rw [hpt]
    simp [processTarget, query_database, queryLoop]

/-- Witness for C10: a run whose first database has a failing query and
whose second database matches one item that is deleted successfully exits
with status 0. -/
theorem C10_witness :
    exit_code (runTargets false [⟨"db", none, none, [QueryResponse.failure], []⟩,
      ⟨"db2", none, none, [QueryResponse.page ["x"] false none],
        [[MutResponse.ok]]⟩]) = 0 := by
  have h := C10_failed_query_indistinguishable false
    ⟨"db", none, none, [QueryResponse.failure], []⟩
    [⟨"db2", none, none, [QueryResponse.page ["x"] false none], [[MutResponse.ok]]⟩]
    rfl
  exact h.2.2.2.1 rfl

/-! ## Claim C9 -/

/-- C9 counterexample. The claim states that a string of any length other
than 32 is returned unchanged. The script, however, strips dashes and
spaces before checking the length: this 33-character input (32 zeros and a
trailing space) is transformed into the dashed form, not returned
unchanged. -/
theorem C9_counterexample :
    format_notion_id "00000000000000000000000000000000 " =
        "00000000-0000-0000-0000-000000000000" ∧
      "00000000000000000000000000000000 ".length = 33 ∧
      format_notion_id "00000000000000000000000000000000 " ≠
        "00000000000000000000000000000000 " := by
  refine ⟨by decide, by decide, by decide⟩

/-- Every character surviving the strip is neither a dash nor a space. -/
theorem mem_stripDashSpace (s : String) :
    ∀ c ∈ stripDashSpace s, (!(c == '-') && !(c == ' ')) = true := by
  intro c hc
  unfold stripDashSpace at hc
  have h2 := List.of_mem_filter hc
  exact h2

/-- Two strings with the same stripped form, of length 32, are formatted
to the same dashed string. -/
theorem format_eq_of_strip_eq (t u : String)
    (h : stripDashSpace t = stripDashSpace u)
    (h32 : (stripDashSpace u).length = 32) :
    format_notion_id t = format_notion_id u := by
  simp [format_notion_id, h, h32]

/-- C9 amended: `format_notion_id` never raises; a string whose
dash-and-space-stripped form has exactly 32 characters (hexness is not
checked) is rebuilt in the canonical dashed shape — 36 characters whose
stripped content is exactly the stripped input, and a fixed point of the
function — while a string whose stripped form has any other length is
returned unchanged, with only a logged warning. -/
theorem C9_amended_format_notion_id (s : String) :
    ((stripDashSpace s).length ≠ 32 → format_notion_id s = s) ∧
      ((stripDashSpace s).length = 32 →
        (format_notion_id s).length = 36 ∧
          stripDashSpace (format_notion_id s) = stripDashSpace s ∧
          format_notion_id (format_notion_id s) = format_notion_id s) := by
  constructor
  · intro h
    simp [format_notion_id, h]
  · intro h
    have mkdata : ∀ l : List Char, (String.mk l).data = l := fun _ => rfl
    have mklen : ∀ l : List Char, (String.mk l).length = l.length := fun _ => rfl
    have dashdata : ("-" : String).data = ['-'] := rfl
    have hform : format_notion_id s =
        String.mk ((stripDashSpace s).take 8) ++ "-" ++
          String.mk (((stripDashSpace s).drop 8).take 4) ++ "-" ++
          String.mk (((stripDashSpace s).drop 12).take 4) ++ "-" ++
          String.mk (((stripDashSpace s).drop 16).take 4) ++ "-" ++
          String.mk ((stripDashSpace s).drop 20) := by
      simp [format_notion_id, h]
    have hmem := mem_stripDashSpace s
    have fpiece : ∀ l : List Char, l ⊆ stripDashSpace s →
        l.filter (fun c => !(c == '-') && !(c == ' ')) = l :=
      fun l hsub => List.filter_eq_self.mpr (fun c hc => hmem c (hsub hc))
    have f1 := fpiece _ (List.take_subset 8 (stripDashSpace s))
    have f2 := fpiece (((stripDashSpace s).drop 8).take 4)
      (fun c hc => List.drop_subset 8 _ (List.take_subset 4 _ hc))
    have f3 := fpiece (((stripDashSpace s).drop 12).take 4)
      (fun c hc => List.drop_subset 12 _ (List.take_subset 4 _ hc))
    have f4 := fpiece (((stripDashSpace s).drop 16).take 4)
      (fun c hc => List.drop_subset 16 _ (List.take_subset 4 _ hc))
    have f5 := fpiece ((stripDashSpace s).drop 20) (List.drop_subset 20 _)
    have hdash : List.filter (fun c => !(c == '-') && !(c == ' ')) ['-'] = [] := rfl
    have d1 : ((stripDashSpace s).drop 8).drop 4 = (stripDashSpace s).drop 12 := by
      simp [List.drop_drop]
    have d2 : ((stripDashSpace s).drop 12).drop 4 = (stripDashSpace s).drop 16 := by
      simp [List.drop_drop]
    have d3 : ((stripDashSpace s).drop 16).drop 4 = (stripDashSpace s).drop 20 := by
      simp [List.drop_drop]
    have e4 : ((stripDashSpace s).drop 16).take 4 ++ (stripDashSpace s).drop 20 =
        (stripDashSpace s).drop 16 := by
      rw [← d3]
      exact List.take_append_drop 4 _
    have e3 : ((stripDashSpace s).drop 12).take 4 ++ (stripDashSpace s).drop 16 =
        (stripDashSpace s).drop 12 := by
      rw [← d2]
      exact List.take_append_drop 4 _
    have e2 : ((stripDashSpace s).drop 8).take 4 ++ (stripDashSpace s).drop 12 =
        (stripDashSpace s).drop 8 := by
      rw [← d1]
      exact List.take_append_drop 4 _
    have hstr : ∀ t : String, stripDashSpace t =
        t.data.filter (fun c => !(c == '-') && !(c == ' ')) := fun _ => rfl
    have hround : stripDashSpace (format_notion_id s) = stripDashSpace s := by
      rw [hform, hstr]
      simp only [String.data_append, mkdata, dashdata, List.filter_append,
        f1, f2, f3, f4, f5, hdash, List.append_nil, List.nil_append, List.append_assoc]
      rw [e4, e3, e2, List.take_append_drop]
    have hlen36 : (format_notion_id s).length = 36 := by
      rw [hform]
      simp [String.length_append, mklen, List.length_take, List.length_drop, h]
    exact ⟨hlen36, hround, format_eq_of_strip_eq (format_notion_id s) s hround h⟩

/-- Witness for C9 at a short string (returned unchanged) and at a bare
32-character id (rebuilt to 36 characters). -/
theorem C9_amended_witness :
    format_notion_id "abc" = "abc" ∧
      (format_notion_id "0123456789abcdef0123456789abcdef").length = 36 :=
  ⟨(C9_amended_format_notion_id "abc").1 (by decide),
    ((C9_amended_format_notion_id "0123456789abcdef0123456789abcdef").2 (by decide)).1⟩
